import Mathlib

/-!
Shallow embedding of `app.py` (Flask weather app) for specification checking.

The source is one request handler (`index`) plus two pure helpers
(`format_time`, `get_weather_description_and_icon`).  JSON numbers are
modelled as exact decimals (`JNum`), JSON field access that can raise
`KeyError` is modelled by `Option` fields, list indexing that can raise
`IndexError` by `List.get?`.
Python exceptions that the handler's `try` block classifies are modelled by
the `PyExc` type; the one exception raised *before* the `try` block
(`request.form['city']` on a missing field) is modelled by the `Except`
layer of `index` itself.
-/

/-! ### Date/time model

`datetime.fromisoformat`, `datetime.fromtimestamp`, and
`strftime` with the `%I:%M %p` and `%a` patterns, as used by the source.
Civil-date arithmetic follows the standard proleptic-Gregorian
days-from-civil / civil-from-days algorithms.  Python's `//` and `%` are
floor division / nonnegative remainder; Lean's `Int` `/` and `%` agree with
them on positive divisors, which is the only case used below.
-/

structure PyDateTime where
  year : Int
  month : Nat
  day : Nat
  hour : Nat
  minute : Nat
  second : Nat
deriving DecidableEq, Repr

/-- Days since 1970-01-01 of a civil date (proleptic Gregorian). -/
def daysFromCivil (y : Int) (m d : Nat) : Int :=
  let y' := if m ≤ 2 then y - 1 else y
  let era := y' / 400
  let yoe := (y' - era * 400).toNat
  let mp := (m + 9) % 12
  let doy := (153 * mp + 2) / 5 + d - 1
  let doe := yoe * 365 + yoe / 4 - yoe / 100 + doy
  era * 146097 + (doe : Int) - 719468

/-- Civil date (year, month, day) of a count of days since 1970-01-01. -/
def civilFromDays (z : Int) : Int × Nat × Nat :=
  let z' := z + 719468
  let era := z' / 146097
  let doe := (z' - era * 146097).toNat
  let yoe := (doe - doe / 1460 + doe / 36524 - doe / 146096) / 365
  let y := (yoe : Int) + era * 400
  let doy := doe - (365 * yoe + yoe / 4 - yoe / 100)
  let mp := (5 * doy + 2) / 153
  let d := doy - (153 * mp + 2) / 5 + 1
  let m := if mp < 10 then mp + 3 else mp - 9
  (if m ≤ 2 then y + 1 else y, m, d)

def isLeapYear (y : Int) : Bool :=
  (y % 4 == 0 && y % 100 != 0) || y % 400 == 0

def daysInMonth (y : Int) (m : Nat) : Nat :=
  if m == 2 then (if isLeapYear y then 29 else 28)
  else if m == 4 || m == 6 || m == 9 || m == 11 then 30
  else 31

def digitVal (c : Char) : Option Nat :=
  if c.isDigit then some (c.toNat - 48) else none

/-- Parse the `HH[:MM[:SS]]` tail of an ISO string (already split off the
date and the one-character separator).  Mirrors the grammar accepted by
`datetime.fromisoformat` without fractional seconds or UTC offsets, which
never occur in this program's inputs. -/
def parseIsoTime (cs : List Char) : Option (Nat × Nat × Nat) :=
  match cs with
  | [h1, h2] => do
    let a ← digitVal h1; let b ← digitVal h2
    pure (a * 10 + b, 0, 0)
  | [h1, h2, ':', n1, n2] => do
    let a ← digitVal h1; let b ← digitVal h2
    let c ← digitVal n1; let d ← digitVal n2
    pure (a * 10 + b, c * 10 + d, 0)
  | [h1, h2, ':', n1, n2, ':', s1, s2] => do
    let a ← digitVal h1; let b ← digitVal h2
    let c ← digitVal n1; let d ← digitVal n2
    let e ← digitVal s1; let f ← digitVal s2
    pure (a * 10 + b, c * 10 + d, e * 10 + f)
  | _ => none

/-- `datetime.fromisoformat`: `YYYY-MM-DD[*HH[:MM[:SS]]]` with any single
separator character, validating the calendar fields; `none` models the
`ValueError` Python raises on a malformed string. -/
def fromisoformat (s : String) : Option PyDateTime :=
  match s.toList with
  | y1 :: y2 :: y3 :: y4 :: '-' :: m1 :: m2 :: '-' :: d1 :: d2 :: rest => do
    let a ← digitVal y1; let b ← digitVal y2
    let c ← digitVal y3; let d ← digitVal y4
    let me ← digitVal m1; let mf ← digitVal m2
    let de ← digitVal d1; let df ← digitVal d2
    let y : Int := ((a * 1000 + b * 100 + c * 10 + d : Nat) : Int)
    let mo := me * 10 + mf
    let da := de * 10 + df
    let hms ← match rest with
      | [] => some (0, 0, 0)
      | _ :: tcs => parseIsoTime tcs
    if 1 ≤ mo && mo ≤ 12 && 1 ≤ da && da ≤ daysInMonth y mo &&
       hms.1 ≤ 23 && hms.2.1 ≤ 59 && hms.2.2 ≤ 59 then
      pure ⟨y, mo, da, hms.1, hms.2.1, hms.2.2⟩
    else none
  | _ => none

/-- `datetime.fromtimestamp(t)`: converts a POSIX timestamp to the *server's
local* date-time; `serverTz` is the server's UTC offset in seconds, an
explicit parameter here because the Python result depends on the host's
timezone.  `none` models the `OverflowError`/`OSError` raised when the
result falls outside `datetime`'s year range 1..9999. -/
def fromtimestamp (serverTz : Int) (t : Int) : Option PyDateTime :=
  let total := t + serverTz
  let days := total / 86400
  let sod := (total % 86400).toNat
  let c := civilFromDays days
  if 1 ≤ c.1 && c.1 ≤ 9999 then
    some ⟨c.1, c.2.1, c.2.2, sod / 3600, sod % 3600 / 60, sod % 60⟩
  else none

def pad2 (n : Nat) : String :=
  if n < 10 then "0" ++ toString n else toString n

/-- `strftime('%I:%M %p')`: 12-hour zero-padded time with AM/PM. -/
def strftimeIMp (h min : Nat) : String :=
  pad2 (if h % 12 == 0 then 12 else h % 12) ++ ":" ++ pad2 min ++ " " ++
    (if h < 12 then "AM" else "PM")

def dayAbbrevs : List String :=
  ["Sun", "Mon", "Tue", "Wed", "Thu", "Fri", "Sat"]

/-- `strftime('%a')`: 3-letter weekday abbreviation (1970-01-01 = Thursday). -/
def weekdayAbbrev (dt : PyDateTime) : String :=
  (dayAbbrevs.get? ((daysFromCivil dt.year dt.month dt.day + 4) % 7).toNat).getD ""

/-- A `timestamp` argument of `format_time`: Python passes either an ISO
string or a number (modelled as integer epoch seconds). -/
inductive PyTime where
  | str (s : String)
  | num (t : Int)
deriving DecidableEq, Repr

/-- `format_time(timestamp, timezone_offset=0)` from `app.py`.  The string
branch parses `timestamp` with `fromisoformat`; the numeric branch calls
`datetime.fromtimestamp(timestamp + timezone_offset)`, which converts via
the server's local timezone (`serverTz`).  Any failure is caught and the
placeholder `"-"` returned. -/
def format_time (serverTz : Int) (timestamp : PyTime) (timezone_offset : Int) : String :=
  match timestamp with
  | .str s =>
    match fromisoformat s with
    | some dt => strftimeIMp dt.hour dt.minute
    | none => "-"
  | .num t =>
    match fromtimestamp serverTz (t + timezone_offset) with
    | some dt => strftimeIMp dt.hour dt.minute
    | none => "-"

/-! ### Weather-code translator -/

/-- Python `str.capitalize()`: first character uppercased, the rest
lowercased. -/
def pyCapitalize (s : String) : String :=
  match s.toList with
  | [] => ""
  | c :: rest => String.mk (c.toUpper :: rest.map Char.toLower)

/-- The WMO-code dict literal of `get_weather_description_and_icon`, in
source order. -/
def wmoMapping : List (Int × String × String) :=
  [(0, "Clear sky", "01d"),
   (1, "Mainly clear", "01d"),
   (2, "Partly cloudy", "02d"),
   (3, "Overcast", "04d"),
   (45, "Fog", "50d"),
   (48, "Depositing rime fog", "50d"),
   (51, "Drizzle: Light", "09d"),
   (53, "Drizzle: Moderate", "09d"),
   (55, "Drizzle: Dense", "09d"),
   (61, "Rain: Slight", "10d"),
   (63, "Rain: Moderate", "10d"),
   (65, "Rain: Heavy", "10d"),
   (80, "Rain showers: Slight", "09d"),
   (81, "Rain showers: Moderate", "09d"),
   (82, "Rain showers: Violent", "09d"),
   (71, "Snow fall: Slight", "13d"),
   (73, "Snow fall: Moderate", "13d"),
   (75, "Snow fall: Heavy", "13d"),
   (95, "Thunderstorm", "11d")]

/-- `get_weather_description_and_icon(code)`: dict lookup with default
`("Clear sky", "01d")`, then `description.capitalize()`. -/
def get_weather_description_and_icon (code : Int) : String × String :=
  let p := (wmoMapping.lookup code).getD ("Clear sky", "01d")
  (pyCapitalize p.1, p.2)

/-- The 19 codes present in the dict literal. -/
def knownCodes : List Int :=
  [0, 1, 2, 3, 45, 48, 51, 53, 55, 61, 63, 65, 80, 81, 82, 71, 73, 75, 95]

/-! ### Python fixed-point float formatting (`f"{x:.0f}"`, `f"{x:.1f}"`)

The numeric values arriving from the collaborators are JSON decimal
numbers; they are modelled exactly as `man / 10 ^ exp`.  Python's
fixed-precision formatting rounds half to even and keeps the sign of a
negative value that rounds to zero. -/

/-- A JSON decimal number with value `man / 10 ^ exp`. -/
structure JNum where
  man : Int
  exp : Nat
deriving DecidableEq, Repr

/-- An integer-valued JSON number. -/
def JNum.ofInt (n : Int) : JNum := ⟨n, 0⟩

/-- Round `num / den` (`den > 0`) to the nearest integer, ties to even
(IEEE/Python rounding). -/
def roundHalfEven (num den : Int) : Int :=
  let fl := num / den
  let rem := num % den
  if 2 * rem < den then fl
  else if den < 2 * rem then fl + 1
  else if fl % 2 = 0 then fl else fl + 1

def padZeros (w : Nat) (s : String) : String :=
  String.mk (List.replicate (w - s.length) '0') ++ s

/-- `f"{x:.prec f}"`: fixed-point rendering with `prec` fractional
digits. -/
def formatFixed (prec : Nat) (x : JNum) : String :=
  let n := roundHalfEven (x.man * (10 : Int) ^ prec) ((10 : Int) ^ x.exp)
  let sign := if x.man < 0 then "-" else ""
  let m := n.natAbs
  if prec == 0 then sign ++ toString m
  else sign ++ toString (m / 10 ^ prec) ++ "." ++
    padZeros prec (toString (m % 10 ^ prec))


/-! ### Request handler model

`index` in `app.py`.  The two outbound HTTP calls are modelled by passing
the collaborators' responses as parameters: `HttpResult.networkError`
models a `requests.exceptions.RequestException` raised by `requests.get`,
and `HttpResult.response status body` a delivered response, on which
`raise_for_status()` raises `HTTPError` for a 4xx/5xx status.  The `Bool`
returned alongside the view model records whether the weather collaborator
was called. -/

inductive PyExc where
  | httpError (status : Nat)
  | requestException (msg : String)
  | keyError (key : String)
  | indexError
  | valueError (msg : String)
deriving DecidableEq, Repr

/-- The `except` clauses of `index`: each caught exception is converted to
the user-facing `error_message` string.  `str(KeyError)` includes the
quoted key; `str(IndexError)` is `list index out of range`; a `ValueError`
(from `datetime.fromisoformat` in the forecast loop) is caught by the
broad `except Exception` clause. -/
def classifyExc : PyExc → String
  | .httpError status => "An API error occurred: " ++ toString status
  | .requestException msg => "A network error occurred: " ++ msg
  | .keyError key => "Error parsing weather data. Missing data: \x27" ++ key ++ "\x27"
  | .indexError => "Error parsing weather data. Missing data: list index out of range"
  | .valueError msg => "An unexpected error occurred: " ++ msg

inductive HttpResult (α : Type) where
  | networkError (msg : String)
  | response (status : Nat) (body : α)
deriving DecidableEq, Repr

/-- `Response.raise_for_status()` raises `HTTPError` exactly for 4xx/5xx. -/
def raisesForStatus (status : Nat) : Bool :=
  400 ≤ status && status < 600

/-- One entry of the geocoding response's `results` list.  Fields read via
`[...]` (which can raise `KeyError`) are `Option`s; `country_code` is read
with `.get(..., '')`. -/
structure GeoResult where
  name : Option String
  country_code : Option String
  latitude : Option JNum
  longitude : Option JNum
deriving DecidableEq, Repr

/-- The geocoding response body; `results` read via `.get('results')`. -/
structure GeoData where
  results : Option (List GeoResult)
deriving DecidableEq, Repr

/-- The `current` block of the weather response. -/
structure CurrentBlock where
  temperature_2m : Option JNum
  apparent_temperature : Option JNum
  relative_humidity_2m : Option JNum
  pressure_msl : Option JNum
  wind_speed_10m : Option JNum
  weather_code : Option Int
deriving DecidableEq, Repr

/-- The `daily` block of the weather response: index-aligned arrays. -/
structure DailyBlock where
  time : Option (List String)
  weather_code : Option (List Int)
  temperature_2m_max : Option (List JNum)
  sunrise : Option (List String)
  sunset : Option (List String)
  uv_index_max : Option (List JNum)
deriving DecidableEq, Repr

/-- The weather response body. -/
structure WeatherResp where
  current : Option CurrentBlock
  daily : Option DailyBlock
deriving DecidableEq, Repr

/-- A value stored in the `weather_data` dict: the source mixes
pre-formatted strings with one raw number (`humidity`). -/
inductive Val where
  | str (s : String)
  | num (x : JNum)
deriving DecidableEq, Repr

def Val.isStr : Val → Bool
  | .str _ => true
  | .num _ => false

/-- The `weather_data` dict built at lines 104-115 of `app.py`. -/
structure WeatherData where
  city : String
  temperature : Val
  feels_like : Val
  description : String
  wind : Val
  humidity : Val
  pressure : Val
  uvi : Val
  sunrise : String
  sunset : String
deriving DecidableEq, Repr

/-- One entry of `forecast_list`. -/
structure ForecastItem where
  day : String
  icon : String
  temp : String
  desc : String
deriving DecidableEq, Repr

/-- What `index` hands to `render_template`. -/
structure ViewModel where
  weather : Option WeatherData
  forecast : Option (List ForecastItem)
  error : Option String
deriving DecidableEq, Repr

/-- Lift a possibly-missing field to the exception monad. -/
def fromOpt (e : PyExc) : Option α → Except PyExc α
  | some a => .ok a
  | none => .error e

def cityNotFoundMsg (city : String) : String :=
  "City not found: \x27" ++ city ++ "\x27. Please check the spelling."

/-- Lines 83-86: extract `latitude`, `longitude` and build the display
label `f"{name}, {country_code}"` from the first geocoding result. -/
def geoAccess (g : GeoResult) : Except PyExc (JNum × JNum × String) := do
  let lat ← fromOpt (.keyError "latitude") g.latitude
  let lon ← fromOpt (.keyError "longitude") g.longitude
  let nm ← fromOpt (.keyError "name") g.name
  pure (lat, lon, nm ++ ", " ++ g.country_code.getD "")

/-- Lines 100-115: evaluate the `weather_data` dict literal, each field
access in source evaluation order; the first missing field or short array
raises. -/
def buildWeatherData (displayName : String) (data : WeatherResp) :
    Except PyExc WeatherData := do
  let current ← fromOpt (.keyError "current") data.current
  let wcode ← fromOpt (.keyError "weather_code") current.weather_code
  let di := get_weather_description_and_icon wcode
  let temp ← fromOpt (.keyError "temperature_2m") current.temperature_2m
  let feels ← fromOpt (.keyError "apparent_temperature") current.apparent_temperature
  let wind ← fromOpt (.keyError "wind_speed_10m") current.wind_speed_10m
  let hum ← fromOpt (.keyError "relative_humidity_2m") current.relative_humidity_2m
  let pres ← fromOpt (.keyError "pressure_msl") current.pressure_msl
  let daily ← fromOpt (.keyError "daily") data.daily
  let uvl ← fromOpt (.keyError "uv_index_max") daily.uv_index_max
  let uv0 ← fromOpt .indexError (uvl.get? 0)
  let srl ← fromOpt (.keyError "sunrise") daily.sunrise
  let sr0 ← fromOpt .indexError (srl.get? 0)
  let ssl ← fromOpt (.keyError "sunset") daily.sunset
  let ss0 ← fromOpt .indexError (ssl.get? 0)
  pure { city := displayName,
         temperature := .str (formatFixed 0 temp),
         feels_like := .str (formatFixed 0 feels),
         description := di.1,
         wind := .str (formatFixed 1 wind),
         humidity := .num hum,
         pressure := .str (formatFixed 0 pres),
         uvi := .str (formatFixed 1 uv0),
         sunrise := format_time 0 (.str sr0) 0,
         sunset := format_time 0 (.str ss0) 0 }

/-- Lines 122-129, one iteration of the forecast loop at daily index `i`,
each access in source evaluation order. -/
def forecastStep (daily : DailyBlock) (i : Nat) : Except PyExc ForecastItem := do
  let wcl ← fromOpt (.keyError "weather_code") daily.weather_code
  let code ← fromOpt .indexError (wcl.get? i)
  let di := get_weather_description_and_icon code
  let tl ← fromOpt (.keyError "time") daily.time
  let t ← fromOpt .indexError (tl.get? i)
  let dt ← fromOpt (.valueError ("Invalid isoformat string: \x27" ++ t ++ "\x27"))
    (fromisoformat t)
  let tml ← fromOpt (.keyError "temperature_2m_max") daily.temperature_2m_max
  let tm ← fromOpt .indexError (tml.get? i)
  pure { day := weekdayAbbrev dt, icon := di.2,
         temp := formatFixed 0 tm, desc := di.1 }

/-- The forecast loop over a list of indices: appends items until an
exception interrupts it, returning the partial list and the exception. -/
def buildForecastAux (daily : DailyBlock) :
    List Nat → List ForecastItem × Option PyExc
  | [] => ([], none)
  | i :: rest =>
    match forecastStep daily i with
    | .error e => ([], some e)
    | .ok item =>
      let r := buildForecastAux daily rest
      (item :: r.1, r.2)

/-- Lines 121-129: `for i in range(1, 6)`. -/
def buildForecast (daily : DailyBlock) : List ForecastItem × Option PyExc :=
  buildForecastAux daily [1, 2, 3, 4, 5]

/-- The `try` block of the POST branch (lines 73-138): given the submitted
city and the two collaborators' responses, produce the view model and
whether the weather collaborator was called. -/
def postView (city : String) (geo : HttpResult GeoData)
    (wea : HttpResult WeatherResp) : ViewModel × Bool :=
  match geo with
  | .networkError msg =>
    (⟨none, none, some (classifyExc (.requestException msg))⟩, false)
  | .response gs gbody =>
    if raisesForStatus gs then
      (⟨none, none, some (classifyExc (.httpError gs))⟩, false)
    else
      match gbody.results with
      | none => (⟨none, none, some (cityNotFoundMsg city)⟩, false)
      | some [] => (⟨none, none, some (cityNotFoundMsg city)⟩, false)
      | some (first :: _) =>
        match geoAccess first with
        | .error e => (⟨none, none, some (classifyExc e)⟩, false)
        | .ok p =>
          match wea with
          | .networkError msg =>
            (⟨none, none, some (classifyExc (.requestException msg))⟩, true)
          | .response ws data =>
            if raisesForStatus ws then
              (⟨none, none, some (classifyExc (.httpError ws))⟩, true)
            else
              match buildWeatherData p.2.2 data with
              | .error e => (⟨none, none, some (classifyExc e)⟩, true)
              | .ok wd =>
                match data.daily with
                | none =>
                  (⟨some wd, some [], some (classifyExc (.keyError "daily"))⟩, true)
                | some daily =>
                  match buildForecast daily with
                  | (items, some e) =>
                    (⟨some wd, some items, some (classifyExc e)⟩, true)
                  | (items, none) => (⟨some wd, some items, none⟩, true)

inductive Method where
  | get
  | post
deriving DecidableEq, Repr

/-- The exception `request.form['city']` raises on a missing form field;
it occurs before the `try` block and is not caught by `index`. -/
inductive Uncaught where
  | badRequestKeyError (key : String)
deriving DecidableEq, Repr

/-- The full handler `index` (lines 64-145): a GET renders the empty
state; a POST reads `request.form['city']` (outside the `try` block) and
runs the lookup.  `Except.error` models an exception escaping the
handler. -/
def index (method : Method) (form : List (String × String))
    (geo : HttpResult GeoData) (wea : HttpResult WeatherResp) :
    Except Uncaught ViewModel :=
  match method with
  | .get => .ok ⟨none, none, none⟩
  | .post =>
    match form.lookup "city" with
    | none => .error (.badRequestKeyError "city")
    | some city => .ok (postView city geo wea).1

/-! ### Concrete sample responses used as witnesses and counterexamples -/

/-- A well-formed geocoding response with one result. -/
def okGeo : HttpResult GeoData :=
  .response 200 ⟨some [⟨some "X", some "YZ", some ⟨10, 0⟩, some ⟨20, 0⟩⟩]⟩

/-- A well-formed `daily` block with six aligned entries. -/
def okDaily : DailyBlock :=
  ⟨some ["2024-05-01", "2024-05-02", "2024-05-03", "2024-05-04",
         "2024-05-05", "2024-05-06"],
   some [0, 1, 2, 3, 61, 95],
   some [⟨20, 0⟩, ⟨21, 0⟩, ⟨22, 0⟩, ⟨23, 0⟩, ⟨245, 1⟩, ⟨25, 0⟩],
   some ["2024-05-01T06:30"], some ["2024-05-01T18:05"], some [⟨52, 1⟩]⟩

/-- A fully well-formed weather response. -/
def okWea : HttpResult WeatherResp :=
  .response 200 ⟨some ⟨some ⟨256, 1⟩, some ⟨250, 1⟩, some ⟨60, 0⟩,
    some ⟨10132, 1⟩, some ⟨55, 1⟩, some 2⟩, some okDaily⟩

/-- A weather response whose `current` block and day-0 daily entries are
complete, but whose daily arrays hold only today's values, so the forecast
loop's access at index 1 raises `IndexError`. -/
def shortWea : HttpResult WeatherResp :=
  .response 200 ⟨some ⟨some ⟨256, 1⟩, some ⟨250, 1⟩, some ⟨60, 0⟩,
    some ⟨10132, 1⟩, some ⟨55, 1⟩, some 2⟩,
    some ⟨some ["2024-05-01"], some [0], some [⟨20, 0⟩],
      some ["2024-05-01T06:30"], some ["2024-05-01T18:05"], some [⟨52, 1⟩]⟩⟩

/-! ### Spec-side definition for claim C7

The spec describes the numeric branch of `format_time` as rendering
`timestamp + timezoneOffsetSeconds` interpreted relative to UTC; the code
instead converts via the server's local timezone. -/

/-- Modelled from the spec (4.2): the 12-hour rendering of an epoch second
count interpreted relative to UTC. -/
def specUTCRender (total : Int) : String :=
  let sod := (total % 86400).toNat
  strftimeIMp (sod / 3600) (sod % 3600 / 60)

/-- The conversion performed by `fromtimestamp` stays inside `datetime`'s
year range 1..9999. -/
def epochInRange (total : Int) : Bool :=
  1 ≤ (civilFromDays (total / 86400)).1 && (civilFromDays (total / 86400)).1 ≤ 9999

/-! ### Claims about the pure helpers -/

/-- C1: For every integer code among the 19 codes of the spec's mapping
table, `get_weather_description_and_icon` returns exactly the listed
(description, icon) pair with the description's first letter capitalized
(and the rest lowercased, per `str.capitalize`); for every integer code
not in the table it returns `("Clear sky", "01d")`; the function is total,
so it never fails. -/
theorem c1_translate_table :
    (∀ c : Int, c ∉ knownCodes →
      get_weather_description_and_icon c = ("Clear sky", "01d")) ∧
    get_weather_description_and_icon 0 = ("Clear sky", "01d") ∧
    get_weather_description_and_icon 1 = ("Mainly clear", "01d") ∧
    get_weather_description_and_icon 2 = ("Partly cloudy", "02d") ∧
    get_weather_description_and_icon 3 = ("Overcast", "04d") ∧
    get_weather_description_and_icon 45 = ("Fog", "50d") ∧
    get_weather_description_and_icon 48 = ("Depositing rime fog", "50d") ∧
    get_weather_description_and_icon 51 = ("Drizzle: light", "09d") ∧
    get_weather_description_and_icon 53 = ("Drizzle: moderate", "09d") ∧
    get_weather_description_and_icon 55 = ("Drizzle: dense", "09d") ∧
    get_weather_description_and_icon 61 = ("Rain: slight", "10d") ∧
    get_weather_description_and_icon 63 = ("Rain: moderate", "10d") ∧
    get_weather_description_and_icon 65 = ("Rain: heavy", "10d") ∧
    get_weather_description_and_icon 71 = ("Snow fall: slight", "13d") ∧
    get_weather_description_and_icon 73 = ("Snow fall: moderate", "13d") ∧
    get_weather_description_and_icon 75 = ("Snow fall: heavy", "13d") ∧
    get_weather_description_and_icon 80 = ("Rain showers: slight", "09d") ∧
    get_weather_description_and_icon 81 = ("Rain showers: moderate", "09d") ∧
    get_weather_description_and_icon 82 = ("Rain showers: violent", "09d") ∧
    get_weather_description_and_icon 95 = ("Thunderstorm", "11d") := by
  refine ⟨?_, by decide⟩
  intro c hc
  simp only [knownCodes, List.mem_cons, List.not_mem_nil, or_false, not_or] at hc
  obtain ⟨h0, h1, h2, h3, h45, h48, h51, h53, h55, h61, h63, h65,
    h80, h81, h82, h71, h73, h75, h95⟩ := hc
  have hl : wmoMapping.lookup c = none := by
    simp [wmoMapping, List.lookup,
      beq_false_of_ne h0, beq_false_of_ne h1, beq_false_of_ne h2,
      beq_false_of_ne h3, beq_false_of_ne h45, beq_false_of_ne h48,
      beq_false_of_ne h51, beq_false_of_ne h53, beq_false_of_ne h55,
      beq_false_of_ne h61, beq_false_of_ne h63, beq_false_of_ne h65,
      beq_false_of_ne h80, beq_false_of_ne h81, beq_false_of_ne h82,
      beq_false_of_ne h71, beq_false_of_ne h73, beq_false_of_ne h75,
      beq_false_of_ne h95]
  simp only [get_weather_description_and_icon, hl, Option.getD_none]
  rfl

/-- Witness for C1: code 42 is not in the table and maps to the default. -/
theorem c1_translate_table_witness :
    (42 : Int) ∉ knownCodes ∧
    get_weather_description_and_icon 42 = ("Clear sky", "01d") :=
  ⟨by decide, c1_translate_table.1 42 (by decide)⟩

set_option maxHeartbeats 1000000 in
/-- C6: every string timestamp that parses as an ISO-8601 local date-time
is rendered as the 12-hour HH:MM AM/PM string of its hour and minute,
independently of the timezone-offset argument (and of the server's
timezone); in particular the two literal examples of the spec hold. -/
theorem c6_format_iso_string :
    (∀ (s : String) (dt : PyDateTime) (tz tz' off off' : Int),
      fromisoformat s = some dt →
      format_time tz (.str s) off = strftimeIMp dt.hour dt.minute ∧
      format_time tz (.str s) off = format_time tz' (.str s) off') ∧
    format_time 0 (.str "2024-05-01T06:30") 0 = "06:30 AM" ∧
    format_time 0 (.str "2024-05-01T18:05") 0 = "06:05 PM" := by
  refine ⟨?_, by decide, by decide⟩
  intro s dt tz tz' off off' h
  constructor <;> simp only [format_time, h]

/-- Witness for C6 at the spec's first example, with arbitrary offsets. -/
theorem c6_format_iso_string_witness :
    format_time 5 (.str "2024-05-01T06:30") 7 = strftimeIMp 6 30 :=
  (c6_format_iso_string.1 "2024-05-01T06:30" ⟨2024, 5, 1, 6, 30, 0⟩ 5 0 7 0
    (by decide)).1

/-- C8: whenever parsing or conversion fails (malformed string,
out-of-range numeric value), `format_time` returns the literal `"-"`; it
is a total function, so no exception escapes it; in particular
`format_time` on `"not-a-date"` returns `"-"`. -/
theorem c8_format_failure_dash :
    (∀ (s : String) (tz off : Int),
      fromisoformat s = none → format_time tz (.str s) off = "-") ∧
    (∀ (t tz off : Int),
      fromtimestamp tz (t + off) = none → format_time tz (.num t) off = "-") ∧
    format_time 0 (.str "not-a-date") 0 = "-" := by
  refine ⟨?_, ?_, by decide⟩
  · intro s tz off h
    simp only [format_time, h]
  · intro t tz off h
    simp only [format_time, h]

/-- Witness for C8 at the spec's example `"not-a-date"`. -/
theorem c8_format_failure_dash_witness :
    format_time 3 (.str "not-a-date") 9 = "-" :=
  c8_format_failure_dash.1 "not-a-date" 3 9 (by decide)

/-- C7 counterexample: on a server whose local timezone is UTC+1 (3600),
the numeric branch renders epoch second 0 with offset 0 as "01:00 AM",
while the claim's UTC interpretation of the sum 0 + 0 renders "12:00 AM".
The code converts via `datetime.fromtimestamp`, i.e. the server's local
timezone, not UTC. -/
theorem c7_counterexample :
    format_time 3600 (.num 0) 0 = "01:00 AM" ∧
    specUTCRender (0 + 0) = "12:00 AM" ∧
    format_time 3600 (.num 0) 0 ≠ specUTCRender (0 + 0) := by decide

/-- C7 (amended): the numeric branch treats the timestamp as an epoch
second count, adds the timezone offset, and converts via the server's
local timezone: its output depends only on the sum
timestamp + offset + serverTz, and when that sum is in `datetime`'s range
it equals the UTC rendering of the sum — so it matches the claim's
UTC interpretation exactly when the server's UTC offset is zero. -/
theorem c7_num_branch_amended (tz ts off : Int) :
    (∀ (tz' ts' off' : Int), ts + off + tz = ts' + off' + tz' →
      format_time tz (.num ts) off = format_time tz' (.num ts') off') ∧
    (epochInRange (ts + off + tz) = true →
      format_time tz (.num ts) off = specUTCRender (ts + off + tz)) := by
  constructor
  · intro tz' ts' off' h
    simp only [format_time, fromtimestamp]
    rw [h]
  · intro h
    simp only [epochInRange, Bool.and_eq_true, decide_eq_true_eq] at h
    simp only [format_time, fromtimestamp, specUTCRender]
    rw [if_pos (by simp [h.1, h.2])]

/-- Witness for C7 (amended) at epoch 100, offset 200, server UTC+1. -/
theorem c7_num_branch_amended_witness :
    format_time 3600 (.num 100) 200 = format_time 0 (.num 3700) 200 ∧
    format_time 3600 (.num 100) 200 = specUTCRender (100 + 200 + 3600) :=
  ⟨(c7_num_branch_amended 3600 100 200).1 0 3700 200 (by decide),
   (c7_num_branch_amended 3600 100 200).2 (by decide)⟩

/-! ### Claims about the request handler -/

@[simp] theorem except_ok_bind {α β ε : Type} (a : α) (f : α → Except ε β) :
    (Except.ok a : Except ε α) >>= f = f a := rfl

@[simp] theorem except_error_bind {α β ε : Type} (e : ε) (f : α → Except ε β) :
    (Except.error e : Except ε α) >>= f = Except.error e := rfl

@[simp] theorem except_map_ok {α β ε : Type} (f : α → β) (a : α) :
    f <$> (Except.ok a : Except ε α) = Except.ok (f a) := rfl

@[simp] theorem except_map_error {α β ε : Type} (f : α → β) (e : ε) :
    f <$> (Except.error e : Except ε α) = Except.error e := rfl

@[simp] theorem fromOpt_some {α : Type} (e : PyExc) (a : α) :
    fromOpt e (some a) = Except.ok a := rfl

@[simp] theorem fromOpt_none {α : Type} (e : PyExc) :
    fromOpt e (none : Option α) = Except.error e := rfl

@[simp] theorem except_pure_eq_ok {α ε : Type} (a : α) :
    (pure a : Except ε α) = Except.ok a := rfl

/-- C10: a POST request whose form lacks the `city` field raises at the
form-access step `request.form['city']`, which happens before the
error-classifying `try` block begins, so the exception escapes `index`
uncaught instead of being turned into the user-facing error message. -/
theorem c10_missing_city_uncaught
    (form : List (String × String)) (geo : HttpResult GeoData)
    (wea : HttpResult WeatherResp) (h : form.lookup "city" = none) :
    index .post form geo wea = .error (.badRequestKeyError "city") := by
  simp only [index, h]

/-- Witness for C10: a form carrying only a `town` field. -/
theorem c10_missing_city_uncaught_witness :
    index .post [("town", "Paris")] (.networkError "down")
      (.networkError "down") = .error (.badRequestKeyError "city") :=
  c10_missing_city_uncaught [("town", "Paris")] (.networkError "down")
    (.networkError "down") (by decide)

/-- C3: a delivered, non-error geocoding response whose `results` are
absent or empty makes the handler produce only the city-not-found message
naming the submitted city, without calling the weather collaborator. -/
theorem c3_empty_results_not_found
    (city : String) (st : Nat) (gbody : GeoData) (wea : HttpResult WeatherResp)
    (hst : raisesForStatus st = false)
    (h : gbody.results = none ∨ gbody.results = some []) :
    postView city (.response st gbody) wea =
      (⟨none, none, some (cityNotFoundMsg city)⟩, false) := by
  rcases h with h | h <;> simp [postView, hst, h]

/-- Witness for C3: a 200 geocoding response with an empty results list. -/
theorem c3_empty_results_not_found_witness :
    postView "Atlantis" (.response 200 ⟨some []⟩) (.networkError "down") =
      (⟨none, none, some (cityNotFoundMsg "Atlantis")⟩, false) :=
  c3_empty_results_not_found "Atlantis" 200 ⟨some []⟩ (.networkError "down")
    (by decide) (Or.inr rfl)

/-- C9: when geocoding succeeded but the weather response lacks the
`current` object, the handler fails with the parse-error message for the
missing key `current` (the code's rendering of `MalformedDataError`) and
hands neither current conditions nor a forecast to the view. -/
theorem c9_missing_current
    (city : String) (gst wst : Nat) (first : GeoResult) (rest : List GeoResult)
    (gbody : GeoData) (data : WeatherResp) (p : JNum × JNum × String)
    (hg : raisesForStatus gst = false)
    (hr : gbody.results = some (first :: rest))
    (ha : geoAccess first = .ok p)
    (hw : raisesForStatus wst = false)
    (hc : data.current = none) :
    postView city (.response gst gbody) (.response wst data) =
      (⟨none, none, some (classifyExc (.keyError "current"))⟩, true) := by
  simp [postView, hg, hr, ha, hw, buildWeatherData, hc, fromOpt]

/-- Witness for C9: a weather response with no `current` block. -/
theorem c9_missing_current_witness :
    postView "Paris" (.response 200
        ⟨some [⟨some "Paris", some "FR", some ⟨4885, 1⟩, some ⟨23, 1⟩⟩]⟩)
      (.response 200 ⟨none, none⟩) =
      (⟨none, none, some (classifyExc (.keyError "current"))⟩, true) :=
  c9_missing_current "Paris" 200 200
    ⟨some "Paris", some "FR", some ⟨4885, 1⟩, some ⟨23, 1⟩⟩ [] _ _
    (⟨4885, 1⟩, ⟨23, 1⟩, "Paris, FR") (by decide) rfl rfl (by decide) rfl

/-- Inversion of a successful forecast-loop iteration: every access
succeeded at index `i` and the item is built from the accessed values. -/
theorem forecastStep_ok_inv (d : DailyBlock) (i : Nat) (it : ForecastItem)
    (h : forecastStep d i = .ok it) :
    ∃ wcl code tl t dt tml tm,
      d.weather_code = some wcl ∧ wcl.get? i = some code ∧
      d.time = some tl ∧ tl.get? i = some t ∧
      fromisoformat t = some dt ∧
      d.temperature_2m_max = some tml ∧ tml.get? i = some tm ∧
      it = ⟨weekdayAbbrev dt, (get_weather_description_and_icon code).2,
            formatFixed 0 tm, (get_weather_description_and_icon code).1⟩ := by
  unfold forecastStep at h
  rcases hwc : d.weather_code with _ | wcl <;>
    simp only [hwc, fromOpt_some, fromOpt_none, except_ok_bind,
      except_error_bind] at h
  · exact Except.noConfusion h
  rcases hcode : wcl.get? i with _ | code <;>
    simp only [hcode, fromOpt_some, fromOpt_none, except_ok_bind,
      except_error_bind] at h
  · exact Except.noConfusion h
  rcases htl : d.time with _ | tl <;>
    simp only [htl, fromOpt_some, fromOpt_none, except_ok_bind,
      except_error_bind] at h
  · exact Except.noConfusion h
  rcases ht : tl.get? i with _ | t <;>
    simp only [ht, fromOpt_some, fromOpt_none, except_ok_bind,
      except_error_bind] at h
  · exact Except.noConfusion h
  rcases hdt : fromisoformat t with _ | dt <;>
    simp only [hdt, fromOpt_some, fromOpt_none, except_ok_bind,
      except_error_bind] at h
  · exact Except.noConfusion h
  rcases html : d.temperature_2m_max with _ | tml <;>
    simp only [html, fromOpt_some, fromOpt_none, except_ok_bind,
      except_error_bind] at h
  · exact Except.noConfusion h
  rcases htm : tml.get? i with _ | tm <;>
    simp only [htm, fromOpt_some, fromOpt_none, except_ok_bind,
      except_error_bind, except_pure_eq_ok, Except.ok.injEq] at h
  · exact Except.noConfusion h
  exact ⟨wcl, code, tl, t, dt, tml, tm, rfl, hcode, rfl, ht, hdt, rfl, htm, h.symm⟩

/-- Inversion of a successful `weather_data` construction: every access at
lines 100-115 succeeded and each field holds the value the source computes
from the accessed data, with `humidity` passed through as a raw number. -/
theorem buildWeatherData_ok_inv (dn : String) (data : WeatherResp)
    (wd : WeatherData) (h : buildWeatherData dn data = .ok wd) :
    ∃ current wcode temp feels wind hum pres daily uvl uv0 srl sr0 ssl ss0,
      data.current = some current ∧
      current.weather_code = some wcode ∧
      current.temperature_2m = some temp ∧
      current.apparent_temperature = some feels ∧
      current.wind_speed_10m = some wind ∧
      current.relative_humidity_2m = some hum ∧
      current.pressure_msl = some pres ∧
      data.daily = some daily ∧
      daily.uv_index_max = some uvl ∧ uvl.get? 0 = some uv0 ∧
      daily.sunrise = some srl ∧ srl.get? 0 = some sr0 ∧
      daily.sunset = some ssl ∧ ssl.get? 0 = some ss0 ∧
      wd = { city := dn,
             temperature := .str (formatFixed 0 temp),
             feels_like := .str (formatFixed 0 feels),
             description := (get_weather_description_and_icon wcode).1,
             wind := .str (formatFixed 1 wind),
             humidity := .num hum,
             pressure := .str (formatFixed 0 pres),
             uvi := .str (formatFixed 1 uv0),
             sunrise := format_time 0 (.str sr0) 0,
             sunset := format_time 0 (.str ss0) 0 } := by
  unfold buildWeatherData at h
  rcases hcur : data.current with _ | current <;>
    simp only [hcur, fromOpt_some, fromOpt_none, except_ok_bind,
      except_error_bind] at h
  · exact Except.noConfusion h
  rcases hwcode : current.weather_code with _ | wcode <;>
    simp only [hwcode, fromOpt_some, fromOpt_none, except_ok_bind,
      except_error_bind] at h
  · exact Except.noConfusion h
  rcases htemp : current.temperature_2m with _ | temp <;>
    simp only [htemp, fromOpt_some, fromOpt_none, except_ok_bind,
      except_error_bind] at h
  · exact Except.noConfusion h
  rcases hfeels : current.apparent_temperature with _ | feels <;>
    simp only [hfeels, fromOpt_some, fromOpt_none, except_ok_bind,
      except_error_bind] at h
  · exact Except.noConfusion h
  rcases hwind : current.wind_speed_10m with _ | wind <;>
    simp only [hwind, fromOpt_some, fromOpt_none, except_ok_bind,
      except_error_bind] at h
  · exact Except.noConfusion h
  rcases hhum : current.relative_humidity_2m with _ | hum <;>
    simp only [hhum, fromOpt_some, fromOpt_none, except_ok_bind,
      except_error_bind] at h
  · exact Except.noConfusion h
  rcases hpres : current.pressure_msl with _ | pres <;>
    simp only [hpres, fromOpt_some, fromOpt_none, except_ok_bind,
      except_error_bind] at h
  · exact Except.noConfusion h
  rcases hdaily : data.daily with _ | daily <;>
    simp only [hdaily, fromOpt_some, fromOpt_none, except_ok_bind,
      except_error_bind] at h
  · exact Except.noConfusion h
  rcases huvl : daily.uv_index_max with _ | uvl <;>
    simp only [huvl, fromOpt_some, fromOpt_none, except_ok_bind,
      except_error_bind] at h
  · exact Except.noConfusion h
  rcases huv0 : uvl.get? 0 with _ | uv0 <;>
    simp only [huv0, fromOpt_some, fromOpt_none, except_ok_bind,
      except_error_bind] at h
  · exact Except.noConfusion h
  rcases hsrl : daily.sunrise with _ | srl <;>
    simp only [hsrl, fromOpt_some, fromOpt_none, except_ok_bind,
      except_error_bind] at h
  · exact Except.noConfusion h
  rcases hsr0 : srl.get? 0 with _ | sr0 <;>
    simp only [hsr0, fromOpt_some, fromOpt_none, except_ok_bind,
      except_error_bind] at h
  · exact Except.noConfusion h
  rcases hssl : daily.sunset with _ | ssl <;>
    simp only [hssl, fromOpt_some, fromOpt_none, except_ok_bind,
      except_error_bind] at h
  · exact Except.noConfusion h
  rcases hss0 : ssl.get? 0 with _ | ss0 <;>
    simp only [hss0, fromOpt_some, fromOpt_none, except_ok_bind,
      except_error_bind, except_map_ok, except_map_error,
      except_pure_eq_ok, Except.ok.injEq] at h
  · exact Except.noConfusion h
  exact ⟨current, wcode, temp, feels, wind, hum, pres, daily, uvl, uv0,
    srl, sr0, ssl, ss0, rfl, hwcode, htemp, hfeels, hwind, hhum, hpres,
    rfl, huvl, huv0, hsrl, hsr0, hssl, hss0, h.symm⟩

/-- Inversion of a POST lookup whose view model carries no error message:
both collaborator calls succeeded, the geocoding results were non-empty,
the `weather_data` dict was built, and the forecast loop ran to completion;
the view model is exactly the success shape. -/
theorem postView_error_none_inv (city : String) (geo : HttpResult GeoData)
    (wea : HttpResult WeatherResp)
    (h : (postView city geo wea).1.error = none) :
    ∃ gs gbody first rest p ws data wd daily,
      geo = .response gs gbody ∧ raisesForStatus gs = false ∧
      gbody.results = some (first :: rest) ∧ geoAccess first = .ok p ∧
      wea = .response ws data ∧ raisesForStatus ws = false ∧
      buildWeatherData p.2.2 data = .ok wd ∧
      data.daily = some daily ∧ (buildForecast daily).2 = none ∧
      postView city geo wea =
        (⟨some wd, some (buildForecast daily).1, none⟩, true) := by
  rcases geo with msg | ⟨gs, gbody⟩
  · simp [postView] at h
  by_cases hg : raisesForStatus gs = true
  · simp [postView, hg] at h
  rw [Bool.not_eq_true] at hg
  rcases hr : gbody.results with _ | ⟨_ | ⟨first, rest⟩⟩
  · simp [postView, hg, hr] at h
  · simp [postView, hg, hr] at h
  rcases ha : geoAccess first with e | p
  · simp [postView, hg, hr, ha] at h
  rcases wea with msg | ⟨ws, data⟩
  · simp [postView, hg, hr, ha] at h
  by_cases hw : raisesForStatus ws = true
  · simp [postView, hg, hr, ha, hw] at h
  rw [Bool.not_eq_true] at hw
  rcases hb : buildWeatherData p.2.2 data with e | wd
  · simp [postView, hg, hr, ha, hw, hb] at h
  rcases hd : data.daily with _ | daily
  · simp [postView, hg, hr, ha, hw, hb, hd] at h
  rcases hf : buildForecast daily with ⟨items, _ | e⟩
  · exact ⟨gs, gbody, first, rest, p, ws, data, wd, daily, rfl, hg, hr, ha,
      rfl, hw, hb, hd, by rw [hf],
      by simp [postView, hg, hr, ha, hw, hb, hd, hf]⟩
  · simp [postView, hg, hr, ha, hw, hb, hd, hf] at h

/-- A forecast loop that finishes without an exception produces one item
per index, each a successful `forecastStep` at its index. -/
theorem buildForecastAux_none_inv (d : DailyBlock) (idxs : List Nat) :
    ∀ (items : List ForecastItem), buildForecastAux d idxs = (items, none) →
      items.length = idxs.length ∧
      ∀ j i, idxs.get? j = some i →
        ∃ it, items.get? j = some it ∧ forecastStep d i = .ok it := by
  induction idxs with
  | nil =>
    intro items h
    simp only [buildForecastAux] at h
    injection h with h1 h2
    subst h1
    exact ⟨rfl, by intro j i hj; simp at hj⟩
  | cons i rest ih =>
    intro items h
    simp only [buildForecastAux] at h
    rcases hstep : forecastStep d i with e | a <;> rw [hstep] at h
    · injection h with h1 h2; exact absurd h2 (by simp)
    · rcases haux : buildForecastAux d rest with ⟨l, o⟩
      rw [haux] at h
      injection h with h1 h2
      subst h2
      subst h1
      obtain ⟨hlen, hall⟩ := ih l haux
      refine ⟨by simp [hlen], ?_⟩
      intro j i' hj
      match j with
      | 0 =>
        simp only [List.get?] at hj
        injection hj with hj
        subst hj
        exact ⟨a, rfl, hstep⟩
      | j + 1 =>
        simp only [List.get?] at hj ⊢
        exact hall j i' hj

/-- C2 counterexample: a weather response whose `current` block and day-0
daily entries are complete but whose daily arrays have only today's
values.  The `weather_data` dict is built and assigned, then the forecast
loop raises `IndexError`, so the view receives weather data AND an error
message together, with an empty partial forecast list — refuting "never
both" and "no partially-filled output". -/
theorem c2_counterexample :
    ((postView "X" okGeo shortWea).1.weather.isSome = true) ∧
    ((postView "X" okGeo shortWea).1.error.isSome = true) ∧
    (postView "X" okGeo shortWea).1.forecast = some [] ∧
    (postView "X" okGeo shortWea).1.error =
      some (classifyExc .indexError) := by decide

/-- C2 (amended): the view model is one of three shapes: an error message
with no weather data and no forecast; complete success data with no error
message; or — when the failure strikes during forecast construction, after
the current-conditions dict was assigned — both the current conditions
(with a partial forecast list) and an error message. -/
theorem c2_view_shape_amended (city : String) (geo : HttpResult GeoData)
    (wea : HttpResult WeatherResp) :
    ((postView city geo wea).1.weather = none ∧
     (postView city geo wea).1.forecast = none ∧
     ((postView city geo wea).1.error.isSome = true)) ∨
    (((postView city geo wea).1.weather.isSome = true) ∧
     ((postView city geo wea).1.forecast.isSome = true) ∧
     (postView city geo wea).1.error = none) ∨
    (((postView city geo wea).1.weather.isSome = true) ∧
     ((postView city geo wea).1.forecast.isSome = true) ∧
     ((postView city geo wea).1.error.isSome = true)) := by
  rcases geo with msg | ⟨gs, gbody⟩
  · exact Or.inl (by simp [postView])
  by_cases hg : raisesForStatus gs = true
  · exact Or.inl (by simp [postView, hg])
  rw [Bool.not_eq_true] at hg
  rcases hr : gbody.results with _ | ⟨_ | ⟨first, rest⟩⟩
  · exact Or.inl (by simp [postView, hg, hr])
  · exact Or.inl (by simp [postView, hg, hr])
  rcases ha : geoAccess first with e | p
  · exact Or.inl (by simp [postView, hg, hr, ha])
  rcases wea with msg | ⟨ws, data⟩
  · exact Or.inl (by simp [postView, hg, hr, ha])
  by_cases hw : raisesForStatus ws = true
  · exact Or.inl (by simp [postView, hg, hr, ha, hw])
  rw [Bool.not_eq_true] at hw
  rcases hb : buildWeatherData p.2.2 data with e | wd
  · exact Or.inl (by simp [postView, hg, hr, ha, hw, hb])
  rcases hd : data.daily with _ | daily
  · exact Or.inr (Or.inr (by simp [postView, hg, hr, ha, hw, hb, hd]))
  rcases hf : buildForecast daily with ⟨items, _ | e⟩
  · exact Or.inr (Or.inl (by simp [postView, hg, hr, ha, hw, hb, hd, hf]))
  · exact Or.inr (Or.inr (by simp [postView, hg, hr, ha, hw, hb, hd, hf]))

/-- C4: every request whose view model carries no error message holds
exactly 5 forecast entries, built from daily indices 1 through 5
inclusive, each with the weekday abbreviation of the ISO date at its
index, the translated weather code's icon and description, and the max
temperature formatted to 0 decimals. -/
theorem c4_five_forecast_days (city : String) (geo : HttpResult GeoData)
    (wea : HttpResult WeatherResp)
    (h : (postView city geo wea).1.error = none) :
    ∃ ws data daily items,
      wea = .response ws data ∧ data.daily = some daily ∧
      (postView city geo wea).1.forecast = some items ∧
      items.length = 5 ∧
      ∀ i, i < 5 →
        ∃ wcl code tl t dt tml tm,
          daily.weather_code = some wcl ∧ wcl.get? (i + 1) = some code ∧
          daily.time = some tl ∧ tl.get? (i + 1) = some t ∧
          fromisoformat t = some dt ∧
          daily.temperature_2m_max = some tml ∧ tml.get? (i + 1) = some tm ∧
          items.get? i = some ⟨weekdayAbbrev dt,
            (get_weather_description_and_icon code).2,
            formatFixed 0 tm,
            (get_weather_description_and_icon code).1⟩ := by
  obtain ⟨gs, gbody, first, rest, p, ws, data, wd, daily, hgeo, hg, hr, ha,
    hwea, hw, hb, hd, hfn, hpv⟩ := postView_error_none_inv city geo wea h
  rcases hf : buildForecast daily with ⟨items, o⟩
  have ho : o = none := by rw [hf] at hfn; exact hfn
  subst ho
  obtain ⟨hlen, hall⟩ := buildForecastAux_none_inv daily [1, 2, 3, 4, 5] items hf
  refine ⟨ws, data, daily, items, hwea, hd, ?_, by simpa using hlen, ?_⟩
  · rw [hpv]; simp [hf]
  · intro i hi
    have hidx : [1, 2, 3, 4, 5].get? i = some (i + 1) := by
      interval_cases i <;> rfl
    obtain ⟨it, hit, hstep⟩ := hall i (i + 1) hidx
    obtain ⟨wcl, code, tl, t, dt, tml, tm, h1, h2, h3, h4, h5, h6, h7, h8⟩ :=
      forecastStep_ok_inv daily (i + 1) it hstep
    exact ⟨wcl, code, tl, t, dt, tml, tm, h1, h2, h3, h4, h5, h6, h7,
      by rw [hit, h8]⟩

/-- Witness for C4: the fully well-formed sample responses yield a 5-entry
forecast. -/
theorem c4_five_forecast_days_witness :
    ((postView "X" okGeo okWea).1.forecast.map List.length) = some 5 := by
  obtain ⟨ws, data, daily, items, hwe, hd, hfor, hlen, _⟩ :=
    c4_five_forecast_days "X" okGeo okWea (by decide)
  rw [hfor]
  simp [hlen]

/-- C5 counterexample: on a fully well-formed pair of responses, the
`humidity` field the handler delivers is the raw number from the response
(`current['relative_humidity_2m']` is passed through unformatted), not a
pre-formatted display string — refuting "every numeric field … is
delivered as a pre-formatted display string". -/
theorem c5_counterexample :
    ((postView "X" okGeo okWea).1.weather.map (fun wd => wd.humidity)) =
      some (.num ⟨60, 0⟩) ∧
    ((postView "X" okGeo okWea).1.weather.map (fun wd => wd.humidity.isStr)) =
      some false := by decide

/-- C5 (amended): on every successful request, the temperature, feels-like
and pressure fields are display strings formatted to 0 decimals, and the
wind-speed and UV-index fields display strings formatted to 1 decimal,
each from the corresponding response value — but the humidity field is
passed through as the raw response number, not a string. -/
theorem c5_current_fields_amended (city : String) (geo : HttpResult GeoData)
    (wea : HttpResult WeatherResp)
    (h : (postView city geo wea).1.error = none) :
    ∃ ws data wd current daily temp feels wind hum pres uvl uv0,
      wea = .response ws data ∧
      (postView city geo wea).1.weather = some wd ∧
      data.current = some current ∧ data.daily = some daily ∧
      current.temperature_2m = some temp ∧
      current.apparent_temperature = some feels ∧
      current.wind_speed_10m = some wind ∧
      current.relative_humidity_2m = some hum ∧
      current.pressure_msl = some pres ∧
      daily.uv_index_max = some uvl ∧ uvl.get? 0 = some uv0 ∧
      wd.temperature = .str (formatFixed 0 temp) ∧
      wd.feels_like = .str (formatFixed 0 feels) ∧
      wd.pressure = .str (formatFixed 0 pres) ∧
      wd.wind = .str (formatFixed 1 wind) ∧
      wd.uvi = .str (formatFixed 1 uv0) ∧
      wd.humidity = .num hum := by
  obtain ⟨gs, gbody, first, rest, p, ws, data, wd, daily, hgeo, hg, hr, ha,
    hwea, hw, hb, hd, hfn, hpv⟩ := postView_error_none_inv city geo wea h
  obtain ⟨current, wcode, temp, feels, wind, hum, pres, daily2, uvl, uv0,
    srl, sr0, ssl, ss0, hcur, hwcode, htemp, hfeels, hwind, hhum, hpres,
    hd2, huvl, huv0, hsrl, hsr0, hssl, hss0, hwd⟩ :=
    buildWeatherData_ok_inv p.2.2 data wd hb
  rw [hd] at hd2
  injection hd2 with hdd
  subst hdd
  exact ⟨ws, data, wd, current, daily, temp, feels, wind, hum, pres, uvl,
    uv0, hwea, by rw [hpv], hcur, hd, htemp, hfeels, hwind, hhum, hpres,
    huvl, huv0, by rw [hwd], by rw [hwd], by rw [hwd], by rw [hwd],
    by rw [hwd], by rw [hwd]⟩

/-- Witness for C5 (amended) at the fully well-formed sample responses. -/
theorem c5_current_fields_amended_witness :
    ∃ ws data wd current daily temp feels wind hum pres uvl uv0,
      okWea = .response ws data ∧
      (postView "X" okGeo okWea).1.weather = some wd ∧
      data.current = some current ∧ data.daily = some daily ∧
      current.temperature_2m = some temp ∧
      current.apparent_temperature = some feels ∧
      current.wind_speed_10m = some wind ∧
      current.relative_humidity_2m = some hum ∧
      current.pressure_msl = some pres ∧
      daily.uv_index_max = some uvl ∧ uvl.get? 0 = some uv0 ∧
      wd.temperature = .str (formatFixed 0 temp) ∧
      wd.feels_like = .str (formatFixed 0 feels) ∧
      wd.pressure = .str (formatFixed 0 pres) ∧
      wd.wind = .str (formatFixed 1 wind) ∧
      wd.uvi = .str (formatFixed 1 uv0) ∧
      wd.humidity = .num hum :=
  c5_current_fields_amended "X" okGeo okWea (by decide)
